import Mathlib

/-!
Verification of the OWASP BLT Lettuce project-finder bot core
(`src/python/entry.py`): the flowchart state machine, the conversation
state store, the catalog cache, the metadata parser for `index.md`
front matter, and the project matcher.

The Python source is shallowly embedded: each Python function becomes a
total Lean function over explicit state, with outbound Slack messages
modelled as values and the key-value store modelled as explicit
before/after records.  Python strings are Lean `String`s; the handful of
Python string primitives the code uses (`startswith`, `find`, `strip`,
`split`, `in`, `lower`, `int(...)`) are embedded below as executable
functions on `List Char`, restricted to ASCII case folding and ASCII
whitespace, which covers every string the program manipulates.
-/

/-! ## Python string primitives -/

/-- Characters treated as whitespace by Python `str.strip()` (ASCII part). -/
def isPySpace (c : Char) : Bool :=
  c = ' ' || c = '\t' || c = '\n' || c = '\r' || c = '\x0b' || c = '\x0c'

/-- Drop whitespace at both ends of a character list (Python `str.strip()`). -/
def stripChars (l : List Char) : List Char :=
  ((l.dropWhile isPySpace).reverse.dropWhile isPySpace).reverse

/-- Python `str.strip()` on strings. -/
def pyStrip (s : String) : String :=
  String.mk (stripChars s.data)

/-- Does `haystack` begin with `needle`?  (Python `str.startswith`.) -/
def charsBeginWith : List Char → List Char → Bool
  | [], _ => true
  | _ :: _, [] => false
  | n :: ns, h :: hs => n = h && charsBeginWith ns hs

/-- Does `haystack` contain `needle` as a contiguous substring?
(Python `needle in haystack`.) -/
def charsContain : List Char → List Char → Bool
  | [], needle => needle.isEmpty
  | c :: rest, needle => charsBeginWith needle (c :: rest) || charsContain rest needle

/-- Python `needle in haystack` on strings. -/
def strContains (haystack needle : String) : Bool :=
  charsContain haystack.data needle.data

/-- Index of the first occurrence of `needle` in `l`, offset by `i`. -/
def findSubAux : List Char → List Char → Nat → Option Nat
  | [], needle, i => if needle.isEmpty then some i else none
  | c :: rest, needle, i =>
    if charsBeginWith needle (c :: rest) then some i else findSubAux rest needle (i + 1)

/-- Python `haystack.find(needle, start)` returning `none` for `-1`. -/
def pyFind (haystack needle : String) (start : Nat) : Option Nat :=
  findSubAux (haystack.data.drop start) needle.data start

/-- Python slice `s[a:b]` (for `a ≤ b`). -/
def pySlice (s : String) (a b : Nat) : String :=
  String.mk ((s.data.drop a).take (b - a))

/-- Split a character list on every occurrence of `sep`
(Python `str.split(sep)` for a one-character separator). -/
def splitOnChar : List Char → Char → List (List Char)
  | [], _ => [[]]
  | c :: rest, sep =>
    match splitOnChar rest sep with
    | [] => [[c]]
    | g :: gs => if c = sep then [] :: g :: gs else (c :: g) :: gs

/-- Split at the first occurrence of `sep` (Python `str.split(sep, 1)`);
only used on lists known to contain `sep`. -/
def splitFirst : List Char → Char → List Char × List Char
  | [], _ => ([], [])
  | c :: rest, sep =>
    if c = sep then ([], rest)
    else
      let p := splitFirst rest sep
      (c :: p.1, p.2)

/-- Accumulate the decimal digits of a Python integer literal, allowing a
single underscore between digits (Python `int` grammar after the first
digit); rejects a trailing or doubled underscore. -/
def parseDigitsCore : List Char → Nat → Option Nat
  | [], acc => some acc
  | '_' :: d :: rest, acc =>
    if d.isDigit then parseDigitsCore rest (acc * 10 + (d.toNat - 48)) else none
  | ['_'], _ => none
  | c :: rest, acc =>
    if c.isDigit then parseDigitsCore rest (acc * 10 + (c.toNat - 48)) else none

/-- Parse a nonempty unsigned digit sequence (first character must be a digit). -/
def parseUnsigned : List Char → Option Nat
  | [] => none
  | c :: rest => if c.isDigit then parseDigitsCore rest (c.toNat - 48) else none

/-- Python `int(value)` for ASCII decimal strings: strip whitespace, optional
sign, nonempty digit run; `none` models the `ValueError` the code catches. -/
def pyInt (s : String) : Option Int :=
  match stripChars s.data with
  | '+' :: rest => (parseUnsigned rest).map Int.ofNat
  | '-' :: rest => (parseUnsigned rest).map (fun n => -(Int.ofNat n))
  | rest => (parseUnsigned rest).map Int.ofNat

/-- ASCII lower-casing (Python `str.lower()` on the ASCII strings the
program manipulates). -/
def lowerStr (s : String) : String :=
  String.mk (s.data.map Char.toLower)

/-! ## Python dict as an insertion-ordered association list -/

/-- Python `d[k] = v`: overwrite in place if `k` is present, else append. -/
def setAssoc {α : Type} : List (String × α) → String → α → List (String × α)
  | [], k, v => [(k, v)]
  | (k', v') :: rest, k, v =>
    if k' = k then (k, v) :: rest else (k', v') :: setAssoc rest k v

/-- Python `d.get(k)`. -/
def lookupAssoc {α : Type} : List (String × α) → String → Option α
  | [], _ => none
  | (k', v) :: rest, k => if k' = k then some v else lookupAssoc rest k

/-! ## Metadata parsing (`parse_index_md`) -/

/-- Values a parsed metadata dict can hold: plain strings, the integer
`level`, and the `tags` list. -/
inductive MetaValue where
  | str (s : String)
  | int (n : Int)
  | list (l : List String)
deriving DecidableEq, Repr

/-- Python truthiness for a metadata value (`if metadata.get("title")`). -/
def pyTruthy : MetaValue → Bool
  | .str s => !(s == "")
  | .int n => !(n == 0)
  | .list l => !l.isEmpty

/-- Python truthiness of an optional metadata value (`d.get(k)` may be `None`). -/
def pyTruthyOpt : Option MetaValue → Bool
  | none => false
  | some v => pyTruthy v

/-- Store one `key: value` pair, with the special cases for `tags`
(comma-split, each entry stripped; empty value gives `[]`) and `level`
(integer parse, `ValueError` defaulting to `0`) from `parse_index_md`. -/
def processKV (m : List (String × MetaValue)) (key value : String) :
    List (String × MetaValue) :=
  if key = "tags" then
    if value = "" then setAssoc m key (.list [])
    else setAssoc m key
      (.list ((splitOnChar value.data ',').map (fun v => String.mk (stripChars v))))
  else if key = "level" then
    match pyInt value with
    | some n => setAssoc m key (.int n)
    | none => setAssoc m key (.int 0)
  else setAssoc m key (.str value)

/-- Process one line of the front matter: strip it, skip it unless it
contains a colon, else split at the first colon and store the pair. -/
def processLine (m : List (String × MetaValue)) (lineChars : List Char) :
    List (String × MetaValue) :=
  let line := stripChars lineChars
  if charsContain line [':'] then
    let p := splitFirst line ':'
    processKV m (String.mk (stripChars p.1)) (String.mk (stripChars p.2))
  else m

/-- Parse every line of the stripped front-matter text into a metadata dict. -/
def parse_metadata_block (frontmatter : String) : List (String × MetaValue) :=
  (splitOnChar frontmatter.data '\n').foldl processLine []

/-- Embedding of `parse_index_md` from `entry.py`: require the opening
`---` delimiter, find the closing `---` from index 3, parse the stripped
front matter line by line, and return the dict only when `title` is truthy. -/
def parse_index_md (content : String) : Option (List (String × MetaValue)) :=
  if charsBeginWith "---".data content.data then
    match pyFind content "---" 3 with
    | none => none
    | some end_index =>
      let metadata := parse_metadata_block (pyStrip (pySlice content 3 end_index))
      if pyTruthyOpt (lookupAssoc metadata "title") then some metadata else none
  else none

/-! ## The flowchart graph (`FLOWCHART_QUESTIONS`) -/

/-- One multiple-choice option of a flowchart node: button text, the
selection value, and the key of the next node (or the terminal `"end"`). -/
structure FlowOption where
  text : String
  value : String
  next : String
deriving DecidableEq, Repr

/-- One flowchart node: its question text and its ordered options. -/
structure FlowNode where
  question : String
  options : List FlowOption
deriving DecidableEq, Repr

/-- The static flowchart graph from `entry.py`, as an insertion-ordered dict. -/
def FLOWCHART_QUESTIONS : List (String × FlowNode) := [
  ("start",
   { question := "What type of OWASP resource are you looking for?",
     options := [
       { text := "🛠️ Security Tool", value := "tool", next := "tool_type" },
       { text := "📚 Documentation/Guide", value := "documentation", next := "doc_type" },
       { text := "🎓 Training/Education", value := "training", next := "training_type" },
       { text := "🔬 Vulnerable Application (for testing)", value := "vulnerable_app", next := "vuln_app_type" }] }),
  ("tool_type",
   { question := "What kind of security tool are you looking for?",
     options := [
       { text := "🔍 Code Analysis/SAST", value := "code_analysis", next := "end" },
       { text := "🌐 Web Application Testing", value := "web_testing", next := "end" },
       { text := "🔐 Authentication/Authorization", value := "auth", next := "end" },
       { text := "📊 Security Monitoring", value := "monitoring", next := "end" },
       { text := "🔙 Go Back", value := "back", next := "start" }] }),
  ("doc_type",
   { question := "What documentation are you interested in?",
     options := [
       { text := "📋 Security Standards/Checklists", value := "standards", next := "end" },
       { text := "🏗️ Secure Development Guide", value := "secure_dev", next := "end" },
       { text := "📖 Security Testing Guide", value := "testing_guide", next := "end" },
       { text := "⚡ Quick Reference", value := "cheatsheet", next := "end" },
       { text := "🔙 Go Back", value := "back", next := "start" }] }),
  ("training_type",
   { question := "What kind of training are you looking for?",
     options := [
       { text := "🎮 Hands-on Labs/CTF", value := "labs", next := "end" },
       { text := "📺 Presentations/Slides", value := "presentations", next := "end" },
       { text := "🎓 Courses/Curriculum", value := "courses", next := "end" },
       { text := "🔙 Go Back", value := "back", next := "start" }] }),
  ("vuln_app_type",
   { question := "What type of vulnerable application do you need?",
     options := [
       { text := "🌐 Web Application", value := "vuln_web", next := "end" },
       { text := "📱 Mobile Application", value := "vuln_mobile", next := "end" },
       { text := "🔌 API Security", value := "vuln_api", next := "end" },
       { text := "🔙 Go Back", value := "back", next := "start" }] })]

/-! ## Conversation state (`store_user_selection`) -/

/-- The per-user conversation record stored in KV under
`conversation:{userId}`: the selections dict and the last-updated stamp. -/
structure ConversationState where
  selections : List (String × String)
  last_updated : Nat
deriving DecidableEq, Repr

/-- Embedding of `store_user_selection`: load the existing state (or start
from an empty selections dict), overwrite `selections[question]`, stamp
`last_updated`, and return the record that is written back (with TTL 3600). -/
def store_user_selection (existing : Option ConversationState) (now : Nat)
    (question answer : String) : ConversationState :=
  let state := existing.getD { selections := [], last_updated := 0 }
  { selections := setAssoc state.selections question answer, last_updated := now }

/-! ## Flowchart actions (`send_flowchart_question`, `handle_flowchart_action`) -/

/-- The decoded JSON button payload `{current, selected, next}` built by
`send_flowchart_question`; the surrounding `Option` at the use site models
`json.JSONDecodeError`. -/
structure FlowValue where
  current : String
  selected : String
  next : String
deriving DecidableEq, Repr

/-- The outbound DM a handler produces, abstracted to which message is sent:
a flowchart question for a node key, the matching-projects reply for a
classification tag, or the learn-more card. -/
inductive OutMessage where
  | question (key : String)
  | projects (category : String)
  | learnMore
deriving DecidableEq, Repr

/-- Embedding of `send_flowchart_question`: look the key up in
`FLOWCHART_QUESTIONS`; an unknown key sends nothing (`if not question_data:
return`), a known key sends that node's question. -/
def send_flowchart_question (question_key : String) : Option OutMessage :=
  match lookupAssoc FLOWCHART_QUESTIONS question_key with
  | none => none
  | some _ => some (.question question_key)

/-- Embedding of `start_conversation`: send the start-node question. -/
def start_conversation : Option OutMessage :=
  send_flowchart_question "start"

/-- Result of handling one interactivity action: the conversation state
after the handler (`none` when it was never written) and the outbound DM. -/
structure HandleResult where
  newState : Option ConversationState
  sent : Option OutMessage
deriving DecidableEq, Repr

/-- Embedding of `handle_flowchart_action`: dispatch on the action id; for
`flowchart_*` actions, a payload that fails JSON decoding restarts the
conversation, otherwise the selection is stored and either the matching
projects are shown (`next == "end"`) or the next question is sent. -/
def handle_flowchart_action (st : Option ConversationState) (now : Nat)
    (action_id : String) (value : Option FlowValue) : HandleResult :=
  if action_id = "start_flowchart" then { newState := st, sent := start_conversation }
  else if action_id = "learn_more" then { newState := st, sent := some .learnMore }
  else if action_id = "start_over" then { newState := st, sent := start_conversation }
  else if charsBeginWith "flowchart_".data action_id.data then
    match value with
    | none => { newState := st, sent := start_conversation }
    | some data =>
      let st' := store_user_selection st now data.current data.selected
      if data.next = "end" then
        { newState := some st', sent := some (.projects data.selected) }
      else
        { newState := some st', sent := send_flowchart_question data.next }
  else { newState := st, sent := none }

/-! ## Catalog cache (`get_cached_projects`) -/

/-- A catalog project record, with the fields `filter_projects` and the
presentation layer read (each defaulting to `""`/`[]` via `.get`). -/
structure Project where
  title : String
  pitch : String
  tags : List String
  type : String
deriving DecidableEq, Repr

/-- 24-hour cache TTL (`CACHE_TTL_SECONDS`). -/
def CACHE_TTL_SECONDS : Nat := 24 * 60 * 60

/-- The cached catalog record stored under `projects:cache`. -/
structure CatalogCache where
  timestamp : Nat
  projects : List Project
deriving DecidableEq, Repr

/-- Result of `get_cached_projects`: the returned list, the cache slot
afterwards, and how many times the fetcher ran. -/
structure GetCachedResult where
  result : List Project
  newCache : Option CatalogCache
  fetcherCalls : Nat
deriving DecidableEq, Repr

/-- Embedding of `get_cached_projects`: return the cached projects while
the cache is younger than the TTL; otherwise invoke the fetcher (whose
output is passed in as `fetchResult`), store it with the current time, and
return it. -/
def get_cached_projects (cache : Option CatalogCache) (now : Nat)
    (fetchResult : List Project) : GetCachedResult :=
  match cache with
  | some data =>
    if now - data.timestamp < CACHE_TTL_SECONDS then
      { result := data.projects, newCache := some data, fetcherCalls := 0 }
    else
      { result := fetchResult, newCache := some { timestamp := now, projects := fetchResult },
        fetcherCalls := 1 }
  | none =>
    { result := fetchResult, newCache := some { timestamp := now, projects := fetchResult },
      fetcherCalls := 1 }

/-! ## Project matcher (`filter_projects`) -/

/-- The static keyword table `category_mappings` from `filter_projects`. -/
def category_mappings : List (String × List String) := [
  ("code_analysis", ["sast", "code", "analysis", "dependency", "scanner"]),
  ("web_testing", ["web", "dast", "testing", "proxy", "scanner", "zap"]),
  ("auth", ["authentication", "authorization", "identity", "sso", "oauth"]),
  ("monitoring", ["monitor", "logging", "detection", "siem"]),
  ("standards", ["standard", "checklist", "asvs", "masvs", "samm"]),
  ("secure_dev", ["development", "secure coding", "security guide"]),
  ("testing_guide", ["testing guide", "pentest", "wstg"]),
  ("cheatsheet", ["cheat", "reference", "quick"]),
  ("labs", ["lab", "ctf", "challenge", "vulnerable", "juice shop", "webgoat"]),
  ("presentations", ["presentation", "slide", "talk"]),
  ("courses", ["course", "curriculum", "training"]),
  ("vuln_web", ["vulnerable", "insecure", "web application", "juice shop", "webgoat"]),
  ("vuln_mobile", ["mobile", "android", "ios", "mstg"]),
  ("vuln_api", ["api", "rest", "graphql"])]

/-- The lowercased searchable text of a project: title, pitch, the
space-joined tags, and type, space-separated (the `searchable` f-string). -/
def searchableText (project : Project) : String :=
  lowerStr (project.title ++ " " ++ project.pitch ++ " "
    ++ String.intercalate " " project.tags ++ " " ++ project.type)

/-- The keyword scan `for kw in keywords: if kw in searchable: ... break`. -/
def matchKeywords (keywords : List String) (searchable : String) : Bool :=
  keywords.any (fun kw => strContains searchable kw)

/-- Embedding of `filter_projects` from `entry.py`: unknown categories have
no keywords and return the input list unchanged; otherwise each project is
kept when its (lowercased) type passes the category family's type check and
some keyword occurs in its searchable text, preserving input order. -/
def filter_projects (projects : List Project) (category : String) : List Project :=
  let keywords := (lookupAssoc category_mappings category).getD []
  if keywords = [] then projects
  else projects.filter (fun project =>
    let searchable := searchableText project
    let project_type := lowerStr project.type
    if ["code_analysis", "web_testing", "auth", "monitoring"].contains category then
      project_type == "tool" && matchKeywords keywords searchable
    else if ["standards", "secure_dev", "testing_guide", "cheatsheet"].contains category then
      ["documentation", "standard"].contains project_type && matchKeywords keywords searchable
    else if ["labs", "presentations", "courses"].contains category then
      matchKeywords keywords searchable
    else if ["vuln_web", "vuln_mobile", "vuln_api"].contains category then
      ["tool", "code"].contains project_type && matchKeywords keywords searchable
    else false)

/-! ## Helper lemmas -/

/-- Writing the same key/value into a dict twice equals writing it once. -/
theorem setAssoc_idem {α : Type} (m : List (String × α)) (k : String) (v : α) :
    setAssoc (setAssoc m k v) k v = setAssoc m k v := by
  induction m with
  | nil => simp [setAssoc]
  | cons hd tl ih =>
    obtain ⟨k', v'⟩ := hd
    by_cases h : k' = k
    · subst h; simp [setAssoc]
    · simp [setAssoc, h, ih]

/-- Looking up a key just written returns the written value. -/
theorem lookupAssoc_setAssoc {α : Type} (m : List (String × α)) (k : String) (v : α) :
    lookupAssoc (setAssoc m k v) k = some v := by
  induction m with
  | nil => simp [setAssoc, lookupAssoc]
  | cons hd tl ih =>
    obtain ⟨k', v'⟩ := hd
    by_cases h : k' = k
    · subst h; simp [setAssoc, lookupAssoc]
    · simp [setAssoc, lookupAssoc, h, ih]

/-! ## Claims -/

/-- C1: for every project list and every classification tag that is not a
key of `category_mappings`, `filter_projects` returns the full input list
unchanged (fail-open, not fail-empty). -/
theorem filter_unknown_tag_fail_open (projects : List Project) (category : String)
    (h : lookupAssoc category_mappings category = none) :
    filter_projects projects category = projects := by
  simp [filter_projects, h]

/-- Witness for C1 at the spec's concrete unknown tag. -/
theorem filter_unknown_tag_fail_open_witness :
    filter_projects [⟨"Test Tool", "A code analysis tool", [], "tool"⟩] "totally_unknown_tag"
      = [⟨"Test Tool", "A code analysis tool", [], "tool"⟩] :=
  filter_unknown_tag_fail_open _ _ (by decide)

/-- C2: `filter_projects` at `"code_analysis"` keeps exactly the projects
whose lowercased type is `"tool"` and whose searchable text contains one of
the five configured keyword substrings, and the result is an
order-preserving subsequence (sublist) of the input. -/
theorem filter_code_analysis_spec (projects : List Project) :
    filter_projects projects "code_analysis" =
      projects.filter (fun p =>
        lowerStr p.type == "tool" &&
          (["sast", "code", "analysis", "dependency", "scanner"].any
            (fun kw => strContains (searchableText p) kw)))
    ∧ List.Sublist (filter_projects projects "code_analysis") projects := by
  have h : filter_projects projects "code_analysis" =
      projects.filter (fun p =>
        lowerStr p.type == "tool" &&
          (["sast", "code", "analysis", "dependency", "scanner"].any
            (fun kw => strContains (searchableText p) kw))) := by
    unfold filter_projects
    simp only [matchKeywords]
    rfl
  exact ⟨h, h ▸ List.filter_sublist projects⟩

/-- C3: `get_cached_projects` returns the stored catalog without running
the fetcher while the cache's age is below the 24-hour TTL, and on a
missing or expired cache runs the fetcher exactly once, stores its output
under the current timestamp, and returns it. -/
theorem get_cached_projects_ttl (data : CatalogCache) (now : Nat)
    (fetchResult : List Project) :
    (now - data.timestamp < CACHE_TTL_SECONDS →
      get_cached_projects (some data) now fetchResult
        = { result := data.projects, newCache := some data, fetcherCalls := 0 })
    ∧ (CACHE_TTL_SECONDS ≤ now - data.timestamp →
      get_cached_projects (some data) now fetchResult
        = { result := fetchResult,
            newCache := some { timestamp := now, projects := fetchResult },
            fetcherCalls := 1 })
    ∧ get_cached_projects none now fetchResult
        = { result := fetchResult,
            newCache := some { timestamp := now, projects := fetchResult },
            fetcherCalls := 1 } := by
  refine ⟨fun h => ?_, fun h => ?_, rfl⟩
  · simp [get_cached_projects, h]
  · simp [get_cached_projects, Nat.not_lt.mpr h]

/-- Witness for C3: a one-second-old cache hit and a cold-cache miss. -/
theorem get_cached_projects_ttl_witness :
    get_cached_projects (some { timestamp := 0, projects := [⟨"T", "P", [], "tool"⟩] }) 1 []
      = { result := [⟨"T", "P", [], "tool"⟩],
          newCache := some { timestamp := 0, projects := [⟨"T", "P", [], "tool"⟩] },
          fetcherCalls := 0 }
    ∧ get_cached_projects (some { timestamp := 0, projects := [⟨"T", "P", [], "tool"⟩] }) 86400 []
      = { result := [], newCache := some { timestamp := 86400, projects := [] },
          fetcherCalls := 1 } :=
  ⟨(get_cached_projects_ttl _ 1 _).1 (by decide),
   (get_cached_projects_ttl _ 86400 _).2.1 (by decide)⟩

/-- C4: parsing a document with a well-formed metadata block (opening
delimiter, `title: X`, `level: 3`, `tags: a, b`, closing delimiter) yields
title `"X"`, level `3`, and tags `["a", "b"]`. -/
theorem parse_index_md_well_formed :
    parse_index_md "---\ntitle: X\nlevel: 3\ntags: a, b\n---\nSome content.\n"
      = some [("title", MetaValue.str "X"), ("level", MetaValue.int 3),
              ("tags", MetaValue.list ["a", "b"])] := by
  decide

/-- C5: a document without the opening `---` delimiter, or without a
closing `---` delimiter, or whose parsed metadata has no `title` key,
parses to `none` rather than to a partial record. -/
theorem parse_index_md_rejects_malformed (content : String) :
    (charsBeginWith "---".data content.data = false → parse_index_md content = none)
    ∧ (pyFind content "---" 3 = none → parse_index_md content = none)
    ∧ (∀ ei, pyFind content "---" 3 = some ei →
        lookupAssoc (parse_metadata_block (pyStrip (pySlice content 3 ei))) "title" = none →
        parse_index_md content = none) := by
  refine ⟨fun h => ?_, fun h => ?_, fun ei hf hl => ?_⟩
  · simp [parse_index_md, h]
  · by_cases hb : charsBeginWith "---".data content.data = true
    · simp [parse_index_md, hb, h]
    · simp [parse_index_md, Bool.not_eq_true _ ▸ hb]
  · by_cases hb : charsBeginWith "---".data content.data = true
    · simp [parse_index_md, hb, hf, hl, pyTruthyOpt]
    · simp [parse_index_md, Bool.not_eq_true _ ▸ hb]

/-- Witness for C5: a plain document, an unterminated block, and a block
with no title. -/
theorem parse_index_md_rejects_malformed_witness :
    parse_index_md "Just some markdown." = none
    ∧ parse_index_md "---\ntitle: X" = none
    ∧ parse_index_md "---\nfoo: bar\n---\n" = none :=
  ⟨(parse_index_md_rejects_malformed _).1 (by decide),
   (parse_index_md_rejects_malformed _).2.1 (by decide),
   (parse_index_md_rejects_malformed _).2.2 13 (by decide) (by decide)⟩

/-- C6 counterexample: for the node key `"bogus"`, which is not in the
graph, `send_flowchart_question` sends nothing and handling the action
whose `next` is `"bogus"` does not re-present the start question — there
is no `UnknownNodeError` and no reset to start. -/
theorem unknown_node_counterexample :
    send_flowchart_question "bogus" = none
    ∧ (handle_flowchart_action none 0 "flowchart_start_x"
        (some { current := "start", selected := "x", next := "bogus" })).sent
      ≠ some (OutMessage.question "start") := by
  decide

/-- C6 amended: given a node key not present in the graph (and distinct
from the terminal `"end"`), `send_flowchart_question` silently sends
nothing, and `handle_flowchart_action` still stores the selection but sends
no message and does not reset the conversation to the start node. -/
theorem unknown_node_silent_noop (k : String)
    (hk : lookupAssoc FLOWCHART_QUESTIONS k = none) (hne : k ≠ "end")
    (st : Option ConversationState) (now : Nat) (action_id current selected : String)
    (h : charsBeginWith "flowchart_".data action_id.data = true) :
    send_flowchart_question k = none
    ∧ handle_flowchart_action st now action_id
        (some { current := current, selected := selected, next := k })
      = { newState := some (store_user_selection st now current selected), sent := none } := by
  have h1 : action_id ≠ "start_flowchart" := by rintro rfl; revert h; decide
  have h2 : action_id ≠ "learn_more" := by rintro rfl; revert h; decide
  have h3 : action_id ≠ "start_over" := by rintro rfl; revert h; decide
  constructor
  · simp [send_flowchart_question, hk]
  · simp [handle_flowchart_action, h1, h2, h3, h, hne, send_flowchart_question, hk]

/-- Witness for the amended C6 at the concrete unknown key `"bogus"`. -/
theorem unknown_node_silent_noop_witness :
    send_flowchart_question "bogus" = none
    ∧ handle_flowchart_action none 0 "flowchart_start_x"
        (some { current := "start", selected := "x", next := "bogus" })
      = { newState := some (store_user_selection none 0 "start" "x"), sent := none } :=
  unknown_node_silent_noop "bogus" (by decide) (by decide) none 0
    "flowchart_start_x" "start" "x" (by decide)

/-- C7: recording an answer is idempotent on the selections map — storing
the same (question, answer) twice yields the same selections dict as
storing it once (only the timestamp is restamped). -/
theorem store_user_selection_idempotent (st : Option ConversationState)
    (now now' : Nat) (question answer : String) :
    (store_user_selection (some (store_user_selection st now question answer))
        now' question answer).selections
      = (store_user_selection st now question answer).selections := by
  simp [store_user_selection, setAssoc_idem]

/-- C8: every option of every node of the static flowchart graph points
either to the terminal marker `"end"` or to an existing node key, so
resolving any declared (node, selection) pair never reaches an undefined
node key. -/
theorem flowchart_graph_closed :
    ∀ entry ∈ FLOWCHART_QUESTIONS, ∀ opt ∈ entry.2.options,
      opt.next = "end" ∨ (lookupAssoc FLOWCHART_QUESTIONS opt.next).isSome = true := by
  decide

/-- Witness for C8 at the start node's first option. -/
theorem flowchart_graph_closed_witness :
    ("tool_type" : String) = "end"
    ∨ (lookupAssoc FLOWCHART_QUESTIONS "tool_type").isSome = true :=
  flowchart_graph_closed
    ("start",
     { question := "What type of OWASP resource are you looking for?",
       options := [
         { text := "🛠️ Security Tool", value := "tool", next := "tool_type" },
         { text := "📚 Documentation/Guide", value := "documentation", next := "doc_type" },
         { text := "🎓 Training/Education", value := "training", next := "training_type" },
         { text := "🔬 Vulnerable Application (for testing)", value := "vulnerable_app", next := "vuln_app_type" }] })
    (by decide)
    { text := "🛠️ Security Tool", value := "tool", next := "tool_type" }
    (by decide)

/-- C9: when the value of a `level:` line does not parse as an integer, the
metadata parser stores level `0` for that record (the embedded total
function models the `try`/`except ValueError` that never raises). -/
theorem level_parse_failure_defaults_zero (m : List (String × MetaValue))
    (value : String) (h : pyInt value = none) :
    processKV m "level" value = setAssoc m "level" (MetaValue.int 0) := by
  unfold processKV
  rw [if_neg (by decide : ¬ ("level" : String) = "tags"), if_pos rfl, h]

/-- Witness for C9 at the unparseable level value `"flagship"`. -/
theorem level_parse_failure_defaults_zero_witness :
    processKV [] "level" "flagship" = setAssoc [] "level" (MetaValue.int 0) :=
  level_parse_failure_defaults_zero [] "flagship" (by decide)

/-- C10: a `Go Back` click is itself recorded as an answer — on any
`flowchart_*` action whose payload is (node `k`, selection `"back"`, next
`"start"`), the handler stores `"back"` under `k` in the selections map and
then re-presents the start question; the stored state is not rolled back. -/
theorem back_selection_recorded (st : Option ConversationState) (now : Nat)
    (k action_id : String)
    (h : charsBeginWith "flowchart_".data action_id.data = true) :
    (handle_flowchart_action st now action_id
        (some { current := k, selected := "back", next := "start" })).newState
      = some (store_user_selection st now k "back")
    ∧ lookupAssoc (store_user_selection st now k "back").selections k = some "back"
    ∧ (handle_flowchart_action st now action_id
        (some { current := k, selected := "back", next := "start" })).sent
      = some (OutMessage.question "start") := by
  have h1 : action_id ≠ "start_flowchart" := by rintro rfl; revert h; decide
  have h2 : action_id ≠ "learn_more" := by rintro rfl; revert h; decide
  have h3 : action_id ≠ "start_over" := by rintro rfl; revert h; decide
  have hsend : send_flowchart_question "start" = some (OutMessage.question "start") := by decide
  refine ⟨?_, ?_, ?_⟩
  · simp [handle_flowchart_action, h1, h2, h3, h]
  · simp [store_user_selection, lookupAssoc_setAssoc]
  · simp [handle_flowchart_action, h1, h2, h3, h, hsend]

/-- Witness for C10: going back from the `tool_type` node. -/
theorem back_selection_recorded_witness :
    (handle_flowchart_action none 0 "flowchart_tool_type_back"
        (some { current := "tool_type", selected := "back", next := "start" })).newState
      = some (store_user_selection none 0 "tool_type" "back")
    ∧ lookupAssoc (store_user_selection none 0 "tool_type" "back").selections "tool_type"
      = some "back"
    ∧ (handle_flowchart_action none 0 "flowchart_tool_type_back"
        (some { current := "tool_type", selected := "back", next := "start" })).sent
      = some (OutMessage.question "start") :=
  back_selection_recorded none 0 "tool_type" "flowchart_tool_type_back" (by decide)
